import Mathlib

set_option maxHeartbeats 1000000

/-!
Verification of the draupnir resource-lifecycle server against its design
document.  The Go source is shallowly embedded: the relational image store
becomes explicit list-of-rows state passing, the OAuth callback correlator
becomes a registry of states plus an explicit delivery event, the request
middleware becomes functions over a request record and a response event log,
and the privileged instance-provisioning shell script becomes a function
from the environment's observable check outcomes to a trace of actions.
-/

/-! ## Data model: models.Image (store row and API record share the shape) -/

/-- Image record: id, backed_up_at, ready, anon, created_at, updated_at.
Timestamps are modelled as naturals, ids as integers. -/
structure Image where
  id : Int
  backedUpAt : Nat
  ready : Bool
  anon : String
  createdAt : Nat
  updatedAt : Nat
deriving DecidableEq, Repr, Inhabited

/-- Table state for images: the rows plus the next serial id to assign. -/
structure ImagesTable where
  rows : List Image
  nextId : Int
deriving DecidableEq, Repr, Inhabited

/-! ## DBImageStore -/

/-- The WHERE clause of MarkAsReady: `id = $1 AND ready = $2`, with `$1` the
input image's ID and `$2` the input image's Ready. -/
def markMatches (img : Image) (r : Image) : Bool :=
  r.id == img.id && r.ready == img.ready

/-- The SET clause of MarkAsReady applied to one row:
`SET ready = TRUE, updated_at = now()`. -/
def markSet (now : Nat) (r : Image) : Image :=
  { r with ready := true, updatedAt := now }

/-- DBImageStore.MarkAsReady: `UPDATE images SET ready = TRUE, updated_at =
now() WHERE id = $1 AND ready = $2 RETURNING id, backed_up_at, ready,
created_at, updated_at`.  The returned row is scanned back into the input
image (its Anon field is not overwritten); when no row matches, QueryRow's
Scan yields the no-rows error, which is returned with the store unchanged. -/
def DBImageStore.markAsReady (rows : List Image) (now : Nat) (img : Image) :
    Except String Image × List Image :=
  let updated := rows.map (fun r => if markMatches img r then markSet now r else r)
  match rows.find? (markMatches img) with
  | some r =>
      (.ok { id := r.id, backedUpAt := r.backedUpAt, ready := true,
             anon := img.anon, createdAt := r.createdAt, updatedAt := now },
       updated)
  | none => (.error "sql: no rows in result set", updated)

/-- DBImageStore.Create: `INSERT INTO images (backed_up_at, ready, anon,
created_at, updated_at) VALUES ($1, $2, $3, $4, $5) RETURNING id,
backed_up_at, ready, created_at, updated_at`, with the five values taken
verbatim from the input image; the returned row is scanned back into the
input image, so the result is the input with the assigned id. -/
def DBImageStore.createImage (db : ImagesTable) (img : Image) :
    Image × ImagesTable :=
  let newRow : Image := { img with id := db.nextId }
  ({ img with id := db.nextId },
   { rows := db.rows ++ [newRow], nextId := db.nextId + 1 })

/-- Clearing the anon column; `List()` never selects it, so scanned images
keep the Go zero value for the field. -/
def eraseAnon (r : Image) : Image := { r with anon := "" }

/-- Insertion step of the embedding of SQL `ORDER BY id ASC`. -/
def insertById (r : Image) : List Image → List Image
  | [] => [r]
  | x :: xs => if r.id ≤ x.id then r :: x :: xs else x :: insertById r xs

/-- The embedding of SQL `ORDER BY id ASC` as an insertion sort on rows. -/
def sortById : List Image → List Image
  | [] => []
  | x :: xs => insertById x (sortById xs)

/-- DBImageStore.List: `SELECT id, backed_up_at, ready, created_at,
updated_at FROM images ORDER BY id ASC`; anon is not selected, so every
returned image carries the zero value for it. -/
def DBImageStore.listImages (rows : List Image) : List Image :=
  (sortById rows).map eraseAnon

/-- DBImageStore.Get: `SELECT id, backed_up_at, ready, anon, created_at,
updated_at FROM images WHERE id = $1`, scanning the full record. -/
def DBImageStore.getImage (rows : List Image) (imageId : Int) :
    Except String Image :=
  match rows.find? (fun r => r.id == imageId) with
  | some r => .ok r
  | none => .error "sql: no rows in result set"

/-! ## AuthCorrelator: routes.AccessTokens -/

/-- oauth2.Token as carried through the callback channel. -/
structure OAuthToken where
  accessToken : String
  tokenType : String
  refreshToken : String
  expiry : Nat
deriving DecidableEq, Repr, Inhabited

/-- routes.OAuthCallback: the message sent through a state's channel,
either a token or an error. -/
structure OAuthCallbackMsg where
  token : OAuthToken
  error : Option String
deriving DecidableEq, Repr, Inhabited

/-- The two ways the `select` inside waitForCallback can resolve: a message
arrives on the channel, or the one-minute timer fires first. -/
inductive CallbackEvent where
  | delivered (msg : OAuthCallbackMsg)
  | timedOut
deriving DecidableEq, Repr

/-- TOKEN_EXCHANGE_TIMEOUT = time.Second * 5, in nanoseconds. -/
def TOKEN_EXCHANGE_TIMEOUT : Nat := 5 * 1000000000

/-- OAUTH_CALLBACK_TIMEOUT = time.Minute, in nanoseconds. -/
def OAUTH_CALLBACK_TIMEOUT : Nat := 60 * 1000000000

/-- routes.waitForCallback: the select over the callback channel and the
OAUTH_CALLBACK_TIMEOUT timer.  A delivered error is propagated, a delivered
token is returned, and the timer firing yields the timeout error. -/
def waitForCallback : CallbackEvent → Except String OAuthToken
  | .delivered msg =>
      match msg.error with
      | some e => .error e
      | none => .ok msg.token
  | .timedOut => .error "Callback timed out"

/-- The Callbacks registry, modelled by the set of state tokens that
currently hold a registered channel. -/
abbrev Registry := List String

/-- Request-scoped logger handle (only its presence matters here). -/
abbrev Logger := Unit

/-- The parts of an http.Request the embedded handlers read: the
request-scoped logger, the attached authenticated identity, the parsed
form fields used by the OAuth endpoints, and the decoded create-access-token
body (`none` models a body jsonapi fails to unmarshal). -/
structure Request where
  logger : Option Logger
  authUser : Option String
  formError : String
  formCode : String
  formState : String
  body : Option String
deriving DecidableEq, Repr

/-- Modelled from the spec: middleware.GetLogger (its definition lives in a
request-logging middleware file that is not under src/).  The spec's
RequestChain design has request-scoped values fetched by accessors that
fail distinctly when the value is absent, which matches every call site in
src/ checking its error. -/
def GetLogger (r : Request) : Except String Logger :=
  match r.logger with
  | some l => .ok l
  | none => .error "Could not acquire logger"

/-- Outcome of AccessTokens.Create as observed by its client. -/
inductive CreateOutcome where
  | errorLogger
  | invalidJSON
  | badRequestOauth (logged : String)
  | created (token : OAuthToken)
deriving DecidableEq, Repr

/-- AccessTokens.Create: after fetching the logger and decoding the body, it
registers a fresh channel for the request's state, blocks in
waitForCallback (the resolution is the `ev` argument), deletes the state
from the registry, and then renders either the 400 oauth error or the 201
response carrying the token. -/
def AccessTokens.create (reg : Registry) (r : Request) (ev : CallbackEvent) :
    CreateOutcome × Registry :=
  match GetLogger r with
  | .error _ => (.errorLogger, reg)
  | .ok _ =>
    match r.body with
    | none => (.invalidJSON, reg)
    | some state =>
      let reg₁ := state :: reg
      let reg₂ := reg₁.filter (fun s => s != state)
      match waitForCallback ev with
      | .error e => (.badRequestOauth e, reg₂)
      | .ok t => (.created t, reg₂)

/-- Outcome of AccessTokens.Callback as observed by its own caller. -/
inductive CallbackOutcome where
  | errorLogger
  | noSlot
  | returnedError (e : String)
  | successPage
deriving DecidableEq, Repr

/-- AccessTokens.Callback: fetches the logger, looks up the channel for the
form's state (a missing channel is logged and the handler returns nil),
then either forwards the provider's error, rejects an empty code, or
exchanges the code for a token; whatever results is sent through the
channel.  The first component is the message delivered into the slot
(`none` when nothing is delivered); the registry is returned unchanged, as
the handler never writes the map. -/
def AccessTokens.callback (reg : Registry)
    (exchange : String → Except String OAuthToken) (r : Request) :
    Option OAuthCallbackMsg × CallbackOutcome × Registry :=
  match GetLogger r with
  | .error _ => (none, .errorLogger, reg)
  | .ok _ =>
    if reg.contains r.formState then
      if r.formError != "" then
        (some ⟨default, some r.formError⟩, .returnedError r.formError, reg)
      else if r.formCode == "" then
        (some ⟨default, some "OAuth callback response code is empty"⟩,
         .returnedError "OAuth callback response code is empty", reg)
      else
        match exchange r.formCode with
        | .error e =>
            (some ⟨default, some ("token exchange error: " ++ e)⟩,
             .returnedError ("token exchange error: " ++ e), reg)
        | .ok t => (some ⟨t, none⟩, .successPage, reg)
    else (none, .noSlot, reg)

/-! ## RequestChain: middleware.Authenticate -/

/-- routes.APIError, the JSON error body rendered by RenderError. -/
structure APIError where
  errId : String
  status : String
  code : String
  title : String
  detail : String
deriving DecidableEq, Repr

/-- Modelled from the spec: api.UnauthorizedError (the server/api error
constants file is not under src/); the spec only requires it to be the
Unauthorized (401) error body rendered when authentication fails. -/
def UnauthorizedError : APIError :=
  { errId := "unauthorized", status := "401", code := "unauthorized",
    title := "Unauthorized", detail := "You do not have permission to access this resource" }

/-- Events written to the http.ResponseWriter. -/
inductive RespEvent where
  | renderedError (statusCode : Nat) (err : APIError)
  | otherWrite (tag : String)
deriving DecidableEq, Repr

/-- chain.Handler: a handler consumes the request and the response log so
far and yields the extended log plus an optional returned error. -/
abbrev Handler := Request → List RespEvent → List RespEvent × Option String

/-- middleware.Authenticate: fetches the logger, runs the injected
authenticator; on failure renders 401 Unauthorized and returns nil without
calling the next handler; on success stores the identity under AuthUserKey
in the request context and yields to the next handler. -/
def Authenticate (authenticateRequest : Request → Except String String)
    (next : Handler) : Handler :=
  fun r w =>
    match GetLogger r with
    | .error e => (w, some e)
    | .ok _ =>
      match authenticateRequest r with
      | .error _ => (w ++ [.renderedError 401 UnauthorizedError], none)
      | .ok email => next { r with authUser := some email } w

/-- middleware.GetAuthenticatedUser: reads the context value at AuthUserKey;
when no string is attached it fails with a distinct error. -/
def GetAuthenticatedUser (r : Request) : Except String String :=
  match r.authUser with
  | some u => .ok u
  | none => .error "Could not acquire authenticated user"

/-! ## Instance provisioning script (draupnir-create-instance) -/

/-- Observable outcomes of the script's psql verification attempts:
whether a non-TLS connection succeeds, whether a TLS connection without a
client certificate succeeds, whether the client-authenticated TLS
connection succeeds, the output of the usesuper query (`none` when the
query itself fails), and whether connecting as the postgres user
succeeds. -/
structure VerifyEnv where
  nonTLSConnects : Bool
  tlsNoCertConnects : Bool
  clientConnects : Bool
  superuserQueryOutput : Option String
  postgresUserConnects : Bool
deriving DecidableEq, Repr

/-- Actions of the provisioning script that matter to its contract. -/
inductive ProvAction where
  | snapshotVolume
  | issueCertificates
  | restrictListenLocalhost
  | startInstance
  | stopInstance
  | removeListenRestriction
  | restartInstance
deriving DecidableEq, Repr

/-- Set-up a draupnir-create-instance run performs before verification:
snapshot the image volume, issue the CA/server/client certificates, append
the temporary `listen_addresses = localhost` restriction, and start the
instance. -/
def setupActions : List ProvAction :=
  [.snapshotVolume, .issueCertificates, .restrictListenLocalhost, .startInstance]

/-- die_and_stop: log the error, stop the instance, exit 1. -/
def die_and_stop (trace : List ProvAction) : List ProvAction × Bool :=
  (trace ++ [.stopInstance], false)

/-- draupnir-create-instance after start-up: run the verification sequence
in order — non-TLS connection must fail, TLS without a client certificate
must fail, client-authenticated TLS must succeed, the current user must
not be a superuser (query output exactly "f"; a failed query aborts, via
die_and_stop inside the substitution and set -e in the parent), and a
connection as the postgres user must fail.  Only when every check holds
does the script remove postgresql.auto.conf (the localhost-only
restriction) and restart the instance; any failure calls die_and_stop. -/
def createInstanceScript (env : VerifyEnv) : List ProvAction × Bool :=
  let t := setupActions
  if env.nonTLSConnects then die_and_stop t
  else if env.tlsNoCertConnects then die_and_stop t
  else if !env.clientConnects then die_and_stop t
  else
    match env.superuserQueryOutput with
    | none => die_and_stop t
    | some s =>
      if s != "f" then die_and_stop t
      else if env.postgresUserConnects then die_and_stop t
      else (t ++ [.removeListenRestriction, .restartInstance], true)

/-! ## Client.GetLatestImage -/

/-- Insertion step of the embedding of sort.Slice with less-function
`images[i].UpdatedAt.After(images[j].UpdatedAt)` (latest first). -/
def insertByLatest (i : Image) : List Image → List Image
  | [] => [i]
  | x :: xs => if x.updatedAt ≤ i.updatedAt then i :: x :: xs else x :: insertByLatest i xs

/-- The embedding of the descending-by-UpdatedAt sort in GetLatestImage. -/
def sortByLatest : List Image → List Image
  | [] => []
  | x :: xs => insertByLatest x (sortByLatest xs)

/-- Client.GetLatestImage applied to a successful ListImages result: sort
the listing so the most recently updated image comes first, then return
the first ready one; with no ready image it fails with
"no images available". -/
def Client.getLatestImage (images : List Image) : Except String Image :=
  match (sortByLatest images).find? (fun i => i.ready) with
  | some i => .ok i
  | none => .error "no images available"

/-! ## Helper lemmas for MarkAsReady -/

theorem markMatches_iff (img r : Image) :
    markMatches img r = true ↔ (r.id = img.id ∧ r.ready = img.ready) := by
  simp [markMatches]

theorem map_markSet_eq_of_no_match {img : Image} {now : Nat} {rows : List Image}
    (h : ∀ r ∈ rows, markMatches img r = false) :
    rows.map (fun r => if markMatches img r then markSet now r else r) = rows := by
  induction rows with
  | nil => rfl
  | cons x xs ih =>
    have hx := h x (List.mem_cons_self x xs)
    have ih' := ih (fun r hr => h r (List.mem_cons_of_mem x hr))
    simp [hx, ih']

theorem no_match_after_mark {img : Image} (hf : img.ready = false)
    (now : Nat) (rows : List Image) :
    ∀ r ∈ rows.map (fun r => if markMatches img r then markSet now r else r),
      markMatches img r = false := by
  intro r hr
  rcases List.mem_map.mp hr with ⟨x, hx, rfl⟩
  by_cases hm : markMatches img x = true
  · rw [if_pos hm]
    simp [markMatches, markSet, hf]
  · rw [if_neg hm]
    exact Bool.eq_false_iff.mpr hm

theorem markAsReady_snd (rows : List Image) (now : Nat) (img : Image) :
    (DBImageStore.markAsReady rows now img).2
      = rows.map (fun r => if markMatches img r then markSet now r else r) := by
  unfold DBImageStore.markAsReady
  split <;> rfl

theorem markAsReady_fst_of_none {rows : List Image} {now : Nat} {img : Image}
    (h : rows.find? (markMatches img) = none) :
    (DBImageStore.markAsReady rows now img).1
      = .error "sql: no rows in result set" := by
  simp [DBImageStore.markAsReady, h]

/-- C1: MarkAsReady sets ready only when a row with the image's id and the
image's carried ready value exists (the update succeeds exactly then); when
no row matches, the call fails with the no-rows error and the store is
unchanged; and after a call presenting expected value false, a second call
presenting the same stale expected value fails and changes nothing, so
ready transitions false-to-true at most once. -/
theorem markAsReady_compare_and_swap (rows : List Image) (now now2 : Nat) (img : Image) :
    ((∃ r ∈ rows, r.id = img.id ∧ r.ready = img.ready) ↔
      ∃ i, (DBImageStore.markAsReady rows now img).1 = .ok i)
    ∧ ((∀ r ∈ rows, ¬(r.id = img.id ∧ r.ready = img.ready)) →
        (DBImageStore.markAsReady rows now img).1 = .error "sql: no rows in result set"
        ∧ (DBImageStore.markAsReady rows now img).2 = rows)
    ∧ (img.ready = false →
        (DBImageStore.markAsReady (DBImageStore.markAsReady rows now img).2 now2 img).1
          = .error "sql: no rows in result set"
        ∧ (DBImageStore.markAsReady (DBImageStore.markAsReady rows now img).2 now2 img).2
          = (DBImageStore.markAsReady rows now img).2) := by
  refine ⟨⟨?_, ?_⟩, ?_, ?_⟩
  · rintro ⟨r, hr, hprop⟩
    have hs : (rows.find? (markMatches img)).isSome :=
      List.find?_isSome.mpr ⟨r, hr, (markMatches_iff img r).mpr hprop⟩
    cases hfind : rows.find? (markMatches img) with
    | none => rw [hfind] at hs; simp at hs
    | some r' =>
      refine ⟨{ id := r'.id, backedUpAt := r'.backedUpAt, ready := true,
                anon := img.anon, createdAt := r'.createdAt, updatedAt := now }, ?_⟩
      simp [DBImageStore.markAsReady, hfind]
  · rintro ⟨i, hi⟩
    cases hfind : rows.find? (markMatches img) with
    | none => simp [DBImageStore.markAsReady, hfind] at hi
    | some r' =>
      exact ⟨r', List.mem_of_find?_eq_some hfind,
        (markMatches_iff img r').mp (List.find?_some hfind)⟩
  · intro hno
    have hfalse : ∀ r ∈ rows, markMatches img r = false := by
      intro x hx
      cases h : markMatches img x with
      | false => rfl
      | true => exact absurd ((markMatches_iff img x).mp h) (hno x hx)
    have hfind : rows.find? (markMatches img) = none := by
      apply List.find?_eq_none.mpr
      intro x hx hmx
      exact absurd ((markMatches_iff img x).mp hmx) (hno x hx)
    refine ⟨markAsReady_fst_of_none hfind, ?_⟩
    rw [markAsReady_snd]
    exact map_markSet_eq_of_no_match hfalse
  · intro hf
    have hall : ∀ r ∈ (DBImageStore.markAsReady rows now img).2,
        markMatches img r = false := by
      rw [markAsReady_snd]
      exact no_match_after_mark hf now rows
    have hfind : (DBImageStore.markAsReady rows now img).2.find? (markMatches img) = none := by
      apply List.find?_eq_none.mpr
      intro x hx hmx
      rw [hall x hx] at hmx
      exact Bool.false_ne_true hmx
    refine ⟨markAsReady_fst_of_none hfind, ?_⟩
    rw [markAsReady_snd]
    exact map_markSet_eq_of_no_match hall

/-- Witness for the MarkAsReady compare-and-swap theorem at concrete
stores: the unchanged-store conjunct against a ready row with a stale
expected value, and the second-stale-call-fails conjunct after a
successful transition. -/
theorem markAsReady_compare_and_swap_witness :
    (DBImageStore.markAsReady [⟨1, 0, true, "s", 0, 0⟩] 5 ⟨1, 0, false, "s", 0, 0⟩).2
      = [⟨1, 0, true, "s", 0, 0⟩]
    ∧ (DBImageStore.markAsReady
        (DBImageStore.markAsReady [⟨1, 0, false, "s", 0, 0⟩] 5 ⟨1, 0, false, "s", 0, 0⟩).2
        6 ⟨1, 0, false, "s", 0, 0⟩).1 = .error "sql: no rows in result set" :=
  ⟨((markAsReady_compare_and_swap [⟨1, 0, true, "s", 0, 0⟩] 5 6 ⟨1, 0, false, "s", 0, 0⟩).2.1
      (by decide)).2,
   ((markAsReady_compare_and_swap [⟨1, 0, false, "s", 0, 0⟩] 5 6 ⟨1, 0, false, "s", 0, 0⟩).2.2
      rfl).1⟩

/-! ## Helper lemmas for the access-token registry -/

theorem not_mem_filter_ne (state : String) (l : List String) :
    state ∉ l.filter (fun s => s != state) := by
  intro h
  have := (List.mem_filter.mp h).2
  simp at this

/-- C2: the wait inside Create resolves on every event: the timer firing
yields the "Callback timed out" error (rendered by Create as the 400 oauth
failure), a delivered token is returned (Create renders 201 with that
token), a delivered error is propagated, and the timer is the fixed
one-minute OAUTH_CALLBACK_TIMEOUT. -/
theorem create_timeout_or_delivery (reg : Registry) (r : Request) (state : String)
    (h1 : r.logger = some ()) (h2 : r.body = some state) :
    OAUTH_CALLBACK_TIMEOUT = 60 * 1000000000
    ∧ waitForCallback .timedOut = .error "Callback timed out"
    ∧ (AccessTokens.create reg r .timedOut).1 = .badRequestOauth "Callback timed out"
    ∧ (∀ t : OAuthToken,
        (AccessTokens.create reg r (.delivered ⟨t, none⟩)).1 = .created t)
    ∧ (∀ t : OAuthToken, ∀ e : String,
        (AccessTokens.create reg r (.delivered ⟨t, some e⟩)).1 = .badRequestOauth e) := by
  refine ⟨rfl, rfl, ?_, ?_, ?_⟩
  · simp [AccessTokens.create, GetLogger, h1, h2, waitForCallback]
  · intro t
    simp [AccessTokens.create, GetLogger, h1, h2, waitForCallback]
  · intro t e
    simp [AccessTokens.create, GetLogger, h1, h2, waitForCallback]

/-- Witness for the Create timeout/delivery theorem at a concrete request:
the timed-out wait yields the 400 outcome carrying the timeout error. -/
theorem create_timeout_or_delivery_witness :
    (AccessTokens.create [] ⟨some (), none, "", "", "", some "st"⟩ .timedOut).1
      = .badRequestOauth "Callback timed out" :=
  (create_timeout_or_delivery [] ⟨some (), none, "", "", "", some "st"⟩ "st" rfl rfl).2.2.1

/-- C3: a message delivered by Callback into the slot registered for the
form's state is consumed unchanged by the Create call blocked on that
slot: a delivered token is returned verbatim in the 201 outcome, and a
delivered error is propagated verbatim into the 400 outcome. -/
theorem callback_to_create_verbatim (reg reg₀ : Registry)
    (exchange : String → Except String OAuthToken) (r rc : Request)
    (msg : OAuthCallbackMsg)
    (hmsg : (AccessTokens.callback reg exchange r).1 = some msg)
    (h1 : rc.logger = some ()) (h2 : rc.body = some r.formState) :
    (msg.error = none →
      (AccessTokens.create reg₀ rc (.delivered msg)).1 = .created msg.token)
    ∧ (∀ e : String, msg.error = some e →
      (AccessTokens.create reg₀ rc (.delivered msg)).1 = .badRequestOauth e) := by
  constructor
  · intro he
    simp [AccessTokens.create, GetLogger, h1, h2, waitForCallback, he]
  · intro e he
    simp [AccessTokens.create, GetLogger, h1, h2, waitForCallback, he]

/-- Witness for the verbatim-delivery theorem: a concrete Callback whose
code exchange yields a token, consumed by a concrete Create on the same
state. -/
theorem callback_to_create_verbatim_witness :
    (AccessTokens.create ["st"] ⟨some (), none, "", "", "", some "st"⟩
        (.delivered ⟨⟨"tok", "Bearer", "ref", 0⟩, none⟩)).1
      = .created ⟨"tok", "Bearer", "ref", 0⟩ :=
  (callback_to_create_verbatim ["st"] ["st"]
      (fun _ => .ok ⟨"tok", "Bearer", "ref", 0⟩)
      ⟨some (), none, "", "code1", "st", none⟩
      ⟨some (), none, "", "", "", some "st"⟩
      ⟨⟨"tok", "Bearer", "ref", 0⟩, none⟩ rfl rfl rfl).1 rfl

/-- C5: whatever the outcome of the wait (delivered token, delivered
error, or timeout), after Create returns, the registry holds no entry for
the request's state. -/
theorem create_removes_slot (reg : Registry) (r : Request) (ev : CallbackEvent)
    (state : String) (h1 : r.logger = some ()) (h2 : r.body = some state) :
    state ∉ (AccessTokens.create reg r ev).2 := by
  simp only [AccessTokens.create, GetLogger, h1, h2]
  cases hw : waitForCallback ev with
  | error e => simpa [hw] using not_mem_filter_ne state (state :: reg)
  | ok t => simpa [hw] using not_mem_filter_ne state (state :: reg)

/-- Witness for slot removal: a concrete Create on a registry already
holding the state and another entry, resolved by timeout. -/
theorem create_removes_slot_witness :
    "st" ∉ (AccessTokens.create ["st", "other"]
        ⟨some (), none, "", "", "", some "st"⟩ .timedOut).2 :=
  create_removes_slot ["st", "other"] ⟨some (), none, "", "", "", some "st"⟩
    .timedOut "st" rfl rfl

/-- C7: a Callback whose state has no registered slot delivers nothing,
returns nil to its own caller, and leaves the registry unchanged. -/
theorem callback_unknown_state_noop (reg : Registry)
    (exchange : String → Except String OAuthToken) (r : Request)
    (h1 : r.logger = some ()) (h2 : reg.contains r.formState = false) :
    AccessTokens.callback reg exchange r = (none, .noSlot, reg) := by
  have h2' : r.formState ∉ reg := by simpa using h2
  simp [AccessTokens.callback, GetLogger, h1, h2']

/-- Witness for the unknown-state no-op: a concrete Callback against an
empty registry. -/
theorem callback_unknown_state_noop_witness :
    AccessTokens.callback [] (fun _ => .error "e")
        ⟨some (), none, "", "c", "missing", none⟩
      = (none, .noSlot, []) :=
  callback_unknown_state_noop [] (fun _ => .error "e")
    ⟨some (), none, "", "c", "missing", none⟩ rfl rfl

/-- C4 counterexample: Create does not force the ready column to false —
inserting an image whose carried ready is true produces a row with
ready = true. -/
theorem createImage_ready_counterexample :
    ¬ (∀ r ∈ (DBImageStore.createImage ⟨[], 1⟩ ⟨0, 0, true, "a", 0, 0⟩).2.rows,
        r.ready = false) := by
  decide

/-- C4 (amended): Create inserts exactly one new row, equal to the input
image with the assigned id — so its ready column equals the ready carried
on the input — and returns that record with the assigned id and the
supplied timestamps; the next serial id is advanced. -/
theorem createImage_inserts_input (db : ImagesTable) (img : Image) :
    (DBImageStore.createImage db img).2.rows
      = db.rows ++ [{ img with id := db.nextId }]
    ∧ ({ img with id := db.nextId } : Image).ready = img.ready
    ∧ (DBImageStore.createImage db img).1 = { img with id := db.nextId }
    ∧ (DBImageStore.createImage db img).2.nextId = db.nextId + 1 :=
  ⟨rfl, rfl, rfl, rfl⟩

/-- C8: when the injected authenticator fails, the middleware renders 401
Unauthorized and its result does not depend on the next handler (it is the
same fixed response for every next); when it succeeds, the next handler
runs on the request with the identity attached, where GetAuthenticatedUser
retrieves exactly that identity; and on a request with no attached
identity GetAuthenticatedUser fails with its distinct error. -/
theorem authenticate_middleware_spec
    (authenticateRequest : Request → Except String String) (next : Handler)
    (r : Request) (w : List RespEvent) (hl : r.logger = some ()) :
    (∀ e : String, authenticateRequest r = .error e →
      Authenticate authenticateRequest next r w
        = (w ++ [.renderedError 401 UnauthorizedError], none))
    ∧ (∀ email : String, authenticateRequest r = .ok email →
      Authenticate authenticateRequest next r w
          = next { r with authUser := some email } w
        ∧ GetAuthenticatedUser { r with authUser := some email } = .ok email)
    ∧ (∀ rq : Request, rq.authUser = none →
      GetAuthenticatedUser rq = .error "Could not acquire authenticated user") := by
  refine ⟨?_, ?_, ?_⟩
  · intro e he
    simp [Authenticate, GetLogger, hl, he]
  · intro email he
    exact ⟨by simp [Authenticate, GetLogger, hl, he], by simp [GetAuthenticatedUser]⟩
  · intro rq hrq
    simp [GetAuthenticatedUser, hrq]

/-- Witness for the middleware theorem: a concrete failing authenticator
yields exactly the 401 render, with a next handler that would have written
something else. -/
theorem authenticate_middleware_spec_witness :
    Authenticate (fun _ => .error "bad token")
        (fun _ w => (w ++ [.otherWrite "handled"], none))
        ⟨some (), none, "", "", "", none⟩ []
      = ([.renderedError 401 UnauthorizedError], none) :=
  (authenticate_middleware_spec (fun _ => .error "bad token")
      (fun _ w => (w ++ [.otherWrite "handled"], none))
      ⟨some (), none, "", "", "", none⟩ [] rfl).1 "bad token" rfl

/-- Shape of a provisioning run: the trace and success flag are a function
of the five verification outcomes, with success exactly when every check
holds. -/
theorem createInstanceScript_eq (env : VerifyEnv) :
    createInstanceScript env
      = if env.nonTLSConnects = false ∧ env.tlsNoCertConnects = false
          ∧ env.clientConnects = true ∧ env.superuserQueryOutput = some "f"
          ∧ env.postgresUserConnects = false
        then (setupActions
                ++ [ProvAction.removeListenRestriction, ProvAction.restartInstance], true)
        else (setupActions ++ [ProvAction.stopInstance], false) := by
  obtain ⟨a, b, c, d, e⟩ := env
  cases d with
  | none =>
    cases a <;> cases b <;> cases c <;> cases e <;>
      simp [createInstanceScript, die_and_stop]
  | some s =>
    by_cases hs : s = "f" <;>
      cases a <;> cases b <;> cases c <;> cases e <;>
        simp [createInstanceScript, die_and_stop, hs]

/-- C9: the localhost-only restriction is removed (and the instance
restarted for network listening) only when all four negative checks hold —
non-TLS refused, TLS without client certificate refused, superuser status
query returning "f", and connection as the postgres identity refused — and
every verification failure aborts the run with the instance stopped and
the restriction never removed. -/
theorem createInstanceScript_verification_gate (env : VerifyEnv) :
    (ProvAction.removeListenRestriction ∈ (createInstanceScript env).1 →
      env.nonTLSConnects = false ∧ env.tlsNoCertConnects = false
      ∧ env.superuserQueryOutput = some "f" ∧ env.postgresUserConnects = false
      ∧ (createInstanceScript env).2 = true
      ∧ (createInstanceScript env).1
          = setupActions ++ [ProvAction.removeListenRestriction, ProvAction.restartInstance])
    ∧ ((createInstanceScript env).2 = false →
      (createInstanceScript env).1 = setupActions ++ [ProvAction.stopInstance]
      ∧ ProvAction.removeListenRestriction ∉ (createInstanceScript env).1) := by
  by_cases hc : (env.nonTLSConnects = false ∧ env.tlsNoCertConnects = false
      ∧ env.clientConnects = true ∧ env.superuserQueryOutput = some "f"
      ∧ env.postgresUserConnects = false)
  · rw [createInstanceScript_eq env, if_pos hc]
    refine ⟨fun _ => ⟨hc.1, hc.2.1, hc.2.2.2.1, hc.2.2.2.2, rfl, rfl⟩, ?_⟩
    intro hfalse
    simp at hfalse
  · rw [createInstanceScript_eq env, if_neg hc]
    refine ⟨?_, fun _ => ⟨rfl, by decide⟩⟩
    intro hmem
    exact absurd hmem (by decide)

/-- Witness for the verification gate: with every check passing the
restriction is removed and the instance restarted; with the non-TLS probe
succeeding the run stops the instance. -/
theorem createInstanceScript_verification_gate_witness :
    (createInstanceScript ⟨false, false, true, some "f", false⟩).1
      = setupActions ++ [ProvAction.removeListenRestriction, ProvAction.restartInstance]
    ∧ (createInstanceScript ⟨true, false, true, some "f", false⟩).1
      = setupActions ++ [ProvAction.stopInstance] :=
  ⟨((createInstanceScript_verification_gate ⟨false, false, true, some "f", false⟩).1
      (by decide)).2.2.2.2.2,
   ((createInstanceScript_verification_gate ⟨true, false, true, some "f", false⟩).2
      (by decide)).1⟩

/-! ## Helper lemmas for the id-ordered listing -/

theorem eraseAnon_id (r : Image) : (eraseAnon r).id = r.id := rfl

theorem insertById_perm (r : Image) (l : List Image) :
    List.Perm (insertById r l) (r :: l) := by
  induction l with
  | nil => exact List.Perm.refl _
  | cons x xs ih =>
    by_cases h : r.id ≤ x.id
    · simp only [insertById, if_pos h]
      exact List.Perm.refl _
    · simp only [insertById, if_neg h]
      exact (List.Perm.cons x ih).trans (List.Perm.swap r x xs)

theorem sortById_perm (l : List Image) : List.Perm (sortById l) l := by
  induction l with
  | nil => exact List.Perm.refl _
  | cons x xs ih => exact (insertById_perm x (sortById xs)).trans (List.Perm.cons x ih)

theorem insertById_pairwise (r : Image) {l : List Image}
    (h : l.Pairwise (fun a b => a.id ≤ b.id)) :
    (insertById r l).Pairwise (fun a b => a.id ≤ b.id) := by
  induction l with
  | nil => simp [insertById]
  | cons x xs ih =>
    rcases List.pairwise_cons.mp h with ⟨hx, hxs⟩
    by_cases hle : r.id ≤ x.id
    · simp only [insertById, if_pos hle]
      refine List.pairwise_cons.mpr ⟨?_, h⟩
      intro b hb
      rcases List.mem_cons.mp hb with rfl | hb
      · exact hle
      · exact le_trans hle (hx b hb)
    · simp only [insertById, if_neg hle]
      refine List.pairwise_cons.mpr ⟨?_, ih hxs⟩
      intro b hb
      have hmem : b ∈ r :: xs := (insertById_perm r xs).mem_iff.mp hb
      rcases List.mem_cons.mp hmem with rfl | hb'
      · exact le_of_not_le hle
      · exact hx b hb'

theorem sortById_pairwise (l : List Image) :
    (sortById l).Pairwise (fun a b => a.id ≤ b.id) := by
  induction l with
  | nil => exact List.Pairwise.nil
  | cons x xs ih => exact insertById_pairwise x ih

theorem insertById_map_eraseAnon (r : Image) (l : List Image) :
    insertById (eraseAnon r) (l.map eraseAnon) = (insertById r l).map eraseAnon := by
  induction l with
  | nil => rfl
  | cons x xs ih =>
    simp only [List.map_cons, insertById, eraseAnon_id]
    by_cases h : r.id ≤ x.id
    · simp [h]
    · simp [h, ih]

theorem sortById_map_eraseAnon (l : List Image) :
    sortById (l.map eraseAnon) = (sortById l).map eraseAnon := by
  induction l with
  | nil => rfl
  | cons x xs ih =>
    simp only [List.map_cons, sortById, ih]
    exact insertById_map_eraseAnon x (sortById xs)

theorem listImages_eraseAnon_invariant (l : List Image) :
    DBImageStore.listImages (l.map eraseAnon) = DBImageStore.listImages l := by
  unfold DBImageStore.listImages
  rw [sortById_map_eraseAnon, List.map_map]
  congr 1

/-- C6: List returns all rows ordered by id ascending with the anon field
blank (never included); its output is identical for any two stores that
agree up to anon values; and Get returns the stored row itself, the full
record including anon. -/
theorem listImages_excludes_anon_get_includes
    (rows rows₁ rows₂ : List Image) (imageId : Int) (i : Image) :
    (DBImageStore.listImages rows).Pairwise (fun a b => a.id ≤ b.id)
    ∧ List.Perm (DBImageStore.listImages rows) (rows.map eraseAnon)
    ∧ (∀ j ∈ DBImageStore.listImages rows, j.anon = "")
    ∧ (rows₁.map eraseAnon = rows₂.map eraseAnon →
        DBImageStore.listImages rows₁ = DBImageStore.listImages rows₂)
    ∧ (DBImageStore.getImage rows imageId = .ok i → i ∈ rows ∧ i.id = imageId) := by
  refine ⟨?_, ?_, ?_, ?_, ?_⟩
  · exact List.pairwise_map.mpr (sortById_pairwise rows)
  · exact List.Perm.map eraseAnon (sortById_perm rows)
  · intro j hj
    rcases List.mem_map.mp hj with ⟨x, _, rfl⟩
    rfl
  · intro h
    rw [← listImages_eraseAnon_invariant rows₁, h, listImages_eraseAnon_invariant rows₂]
  · intro hok
    cases hfind : rows.find? (fun r => r.id == imageId) with
    | none => simp [DBImageStore.getImage, hfind] at hok
    | some r =>
      simp [DBImageStore.getImage, hfind] at hok
      subst hok
      exact ⟨List.mem_of_find?_eq_some hfind, by simpa using List.find?_some hfind⟩

/-- Witness for the listing/get theorem: two stores differing only in anon
have equal listings, and Get on a concrete store returns the stored row
with its id. -/
theorem listImages_excludes_anon_get_includes_witness :
    DBImageStore.listImages [⟨1, 0, true, "secret", 0, 0⟩]
      = DBImageStore.listImages [⟨1, 0, true, "other", 0, 0⟩]
    ∧ ((⟨1, 0, true, "secret", 0, 0⟩ : Image) ∈ [(⟨1, 0, true, "secret", 0, 0⟩ : Image)]
      ∧ (⟨1, 0, true, "secret", 0, 0⟩ : Image).id = 1) :=
  ⟨(listImages_excludes_anon_get_includes [] [⟨1, 0, true, "secret", 0, 0⟩]
      [⟨1, 0, true, "other", 0, 0⟩] 0 default).2.2.2.1 rfl,
   (listImages_excludes_anon_get_includes [⟨1, 0, true, "secret", 0, 0⟩] [] [] 1
      ⟨1, 0, true, "secret", 0, 0⟩).2.2.2.2 rfl⟩

/-! ## Helper lemmas for GetLatestImage -/

theorem insertByLatest_perm (i : Image) (l : List Image) :
    List.Perm (insertByLatest i l) (i :: l) := by
  induction l with
  | nil => exact List.Perm.refl _
  | cons x xs ih =>
    by_cases h : x.updatedAt ≤ i.updatedAt
    · simp only [insertByLatest, if_pos h]
      exact List.Perm.refl _
    · simp only [insertByLatest, if_neg h]
      exact (List.Perm.cons x ih).trans (List.Perm.swap i x xs)

theorem sortByLatest_perm (l : List Image) : List.Perm (sortByLatest l) l := by
  induction l with
  | nil => exact List.Perm.refl _
  | cons x xs ih =>
    exact (insertByLatest_perm x (sortByLatest xs)).trans (List.Perm.cons x ih)

theorem insertByLatest_pairwise (i : Image) {l : List Image}
    (h : l.Pairwise (fun a b => b.updatedAt ≤ a.updatedAt)) :
    (insertByLatest i l).Pairwise (fun a b => b.updatedAt ≤ a.updatedAt) := by
  induction l with
  | nil => simp [insertByLatest]
  | cons x xs ih =>
    rcases List.pairwise_cons.mp h with ⟨hx, hxs⟩
    by_cases hle : x.updatedAt ≤ i.updatedAt
    · simp only [insertByLatest, if_pos hle]
      refine List.pairwise_cons.mpr ⟨?_, h⟩
      intro b hb
      rcases List.mem_cons.mp hb with rfl | hb
      · exact hle
      · exact le_trans (hx b hb) hle
    · simp only [insertByLatest, if_neg hle]
      refine List.pairwise_cons.mpr ⟨?_, ih hxs⟩
      intro b hb
      have hmem : b ∈ i :: xs := (insertByLatest_perm i xs).mem_iff.mp hb
      rcases List.mem_cons.mp hmem with rfl | hb'
      · exact le_of_not_le hle
      · exact hx b hb'

theorem sortByLatest_pairwise (l : List Image) :
    (sortByLatest l).Pairwise (fun a b => b.updatedAt ≤ a.updatedAt) := by
  induction l with
  | nil => exact List.Pairwise.nil
  | cons x xs ih => exact insertByLatest_pairwise x ih

theorem find?_ready_max {l : List Image}
    (hs : l.Pairwise (fun a b => b.updatedAt ≤ a.updatedAt)) {i : Image}
    (h : l.find? (fun x => x.ready) = some i) :
    ∀ j ∈ l, j.ready = true → j.updatedAt ≤ i.updatedAt := by
  induction l with
  | nil => cases h
  | cons x xs ih =>
    rcases List.pairwise_cons.mp hs with ⟨hx, hxs⟩
    by_cases hr : x.ready = true
    · have hfx : (x :: xs).find? (fun y => y.ready) = some x :=
        List.find?_cons_of_pos xs hr
      rw [hfx] at h
      have hix : x = i := by injection h
      subst hix
      intro j hj _
      rcases List.mem_cons.mp hj with rfl | hj'
      · exact le_refl _
      · exact hx j hj'
    · have hfx : (x :: xs).find? (fun y => y.ready) = xs.find? (fun y => y.ready) :=
        List.find?_cons_of_neg xs (by simpa using hr)
      rw [hfx] at h
      intro j hj hready
      rcases List.mem_cons.mp hj with rfl | hj'
      · exact absurd hready hr
      · exact ih hxs h j hj' hready

/-- C10: when GetLatestImage returns an image from a listing, that image
is ready, comes from the listing, and its UpdatedAt is at least that of
every ready image in the listing; when no listed image is ready it fails
with the error "no images available". -/
theorem getLatestImage_spec (images : List Image) (i : Image) :
    (Client.getLatestImage images = .ok i →
      i.ready = true ∧ i ∈ images
      ∧ ∀ j ∈ images, j.ready = true → j.updatedAt ≤ i.updatedAt)
    ∧ ((∀ j ∈ images, j.ready = false) →
      Client.getLatestImage images = .error "no images available") := by
  constructor
  · intro hok
    cases hfind : (sortByLatest images).find? (fun x => x.ready) with
    | none => simp [Client.getLatestImage, hfind] at hok
    | some i' =>
      simp [Client.getLatestImage, hfind] at hok
      subst hok
      refine ⟨by simpa using List.find?_some hfind, ?_, ?_⟩
      · exact (sortByLatest_perm images).mem_iff.mp (List.mem_of_find?_eq_some hfind)
      · intro j hj hready
        exact find?_ready_max (sortByLatest_pairwise images) hfind j
          ((sortByLatest_perm images).mem_iff.mpr hj) hready
  · intro hnone
    have hfind : (sortByLatest images).find? (fun x => x.ready) = none := by
      apply List.find?_eq_none.mpr
      intro x hx hxready
      have hxm : x ∈ images := (sortByLatest_perm images).mem_iff.mp hx
      rw [hnone x hxm] at hxready
      exact Bool.false_ne_true hxready
    simp [Client.getLatestImage, hfind]

/-- Witness for the GetLatestImage theorem: on a listing with two ready
images the later-updated one is returned and dominates, and on a listing
with no ready image the "no images available" error is returned. -/
theorem getLatestImage_spec_witness :
    ((⟨2, 0, true, "", 0, 9⟩ : Image).ready = true
      ∧ (⟨2, 0, true, "", 0, 9⟩ : Image)
          ∈ [(⟨1, 0, true, "", 0, 5⟩ : Image), ⟨2, 0, true, "", 0, 9⟩]
      ∧ ∀ j ∈ [(⟨1, 0, true, "", 0, 5⟩ : Image), ⟨2, 0, true, "", 0, 9⟩],
          j.ready = true → j.updatedAt ≤ (⟨2, 0, true, "", 0, 9⟩ : Image).updatedAt)
    ∧ Client.getLatestImage [(⟨3, 0, false, "", 0, 7⟩ : Image)]
        = .error "no images available" :=
  ⟨(getLatestImage_spec [⟨1, 0, true, "", 0, 5⟩, ⟨2, 0, true, "", 0, 9⟩]
      ⟨2, 0, true, "", 0, 9⟩).1 rfl,
   (getLatestImage_spec [⟨3, 0, false, "", 0, 7⟩] default).2 (by decide)⟩
